import Mathlib

/-!
Shallow embedding of the warehouse economics calculator (`src/app.py`).
Python floats are modelled as exact rationals (ℚ); every arithmetic
operation of the source is translated literally.  Dictionaries returned by
the source functions become structures with the same field names; the
`for` loops of the breakeven solver and of the projection engine become
structural recursions on an explicit counter.
-/

namespace WarehouseApp

/-- Output dictionary of `calculate_financials` (src/app.py lines 214-229). -/
structure FinancialBreakdown where
  total_income : ℚ
  total_expenses : ℚ
  profit : ℚ
  realization_income : ℚ
  storage_income : ℚ
  loan_income_after_realization : ℚ
  vip_income : ℚ
  short_term_income : ℚ
  rental_expense : ℚ
  salary_expense : ℚ
  miscellaneous_expenses : ℚ
  depreciation_expense : ℚ
  loan_interest_rate : ℚ
  daily_storage_fee : ℚ

/-- The argument tuple of `calculate_financials` (src/app.py lines 132-157),
one field per keyword parameter, with the source's default values. -/
structure FinInputs where
  storage_area : ℚ
  loan_area : ℚ
  vip_area : ℚ
  short_term_area : ℚ
  storage_items_density : ℚ
  loan_items_density : ℚ
  vip_items_density : ℚ
  short_term_items_density : ℚ
  storage_fee : ℚ
  item_evaluation : ℚ
  item_realization_markup : ℚ
  average_item_value : ℚ
  loan_interest_rate : ℚ
  realization_share_storage : ℚ
  realization_share_loan : ℚ
  realization_share_vip : ℚ
  realization_share_short_term : ℚ
  rental_cost_per_m2 : ℚ
  total_area : ℚ
  salary_expense : ℚ
  miscellaneous_expenses : ℚ
  depreciation_expense : ℚ
  default_probability : ℚ
  vip_extra_fee : ℚ := 1000
  short_term_daily_rate : ℚ := 60

/-- Translation of `calculate_financials` (src/app.py lines 132-229):
each `let` mirrors one assignment of the Python body, in source order. -/
def calculate_financials (a : FinInputs) : FinancialBreakdown :=
  let stored_items := a.storage_area * a.storage_items_density
  let total_items_loan := a.loan_area * a.loan_items_density
  let vip_stored_items := a.vip_area * a.vip_items_density
  let short_term_stored_items := a.short_term_area * a.short_term_items_density
  let storage_income := a.storage_area * a.storage_fee
  let loan_interest_rate := max a.loan_interest_rate 0
  let loan_amount := a.loan_area * a.average_item_value * a.item_evaluation
  let loan_income_month := loan_amount * (loan_interest_rate / 100) * 30
  let realization_items_storage := stored_items * a.realization_share_storage
  let realization_items_loan := total_items_loan * a.realization_share_loan
  let realization_items_vip := vip_stored_items * a.realization_share_vip
  let realization_items_short_term := short_term_stored_items * a.realization_share_short_term
  let realization_income_storage :=
    realization_items_storage * a.average_item_value * (a.item_realization_markup / 100)
  let realization_income_loan :=
    realization_items_loan * a.average_item_value * (a.item_realization_markup / 100)
  let realization_income_vip :=
    realization_items_vip * a.average_item_value * (a.item_realization_markup / 100)
  let realization_income_short_term :=
    realization_items_short_term * a.average_item_value * (a.item_realization_markup / 100)
  let realization_income := realization_income_storage + realization_income_loan +
    realization_income_vip + realization_income_short_term
  let loan_income_after_realization :=
    loan_income_month * (1 - a.realization_share_loan) * (1 - a.default_probability)
  let vip_income := a.vip_area * (a.storage_fee + a.vip_extra_fee)
  let short_term_income := a.short_term_area * a.short_term_daily_rate * 30
  let total_income := storage_income + loan_income_after_realization +
    realization_income + vip_income + short_term_income
  let rental_expense := a.total_area * a.rental_cost_per_m2
  let total_expenses := rental_expense + a.salary_expense +
    a.miscellaneous_expenses + a.depreciation_expense
  let profit := total_income - total_expenses
  let daily_storage_fee := a.storage_fee / 30
  { total_income := total_income
    total_expenses := total_expenses
    profit := profit
    realization_income := realization_income
    storage_income := storage_income
    loan_income_after_realization := loan_income_after_realization
    vip_income := vip_income
    short_term_income := short_term_income
    rental_expense := rental_expense
    salary_expense := a.salary_expense
    miscellaneous_expenses := a.miscellaneous_expenses
    depreciation_expense := a.depreciation_expense
    loan_interest_rate := loan_interest_rate
    daily_storage_fee := daily_storage_fee }

/-- The per-line realization income of the plain-storage line:
composition of src/app.py lines 167, 181 and 186. -/
def realization_income_storage (a : FinInputs) : ℚ :=
  a.storage_area * a.storage_items_density * a.realization_share_storage *
    a.average_item_value * (a.item_realization_markup / 100)

/-- The per-line realization income of the loan line
(src/app.py lines 168, 182, 187). -/
def realization_income_loan (a : FinInputs) : ℚ :=
  a.loan_area * a.loan_items_density * a.realization_share_loan *
    a.average_item_value * (a.item_realization_markup / 100)

/-- The per-line realization income of the VIP line
(src/app.py lines 169, 183, 188). -/
def realization_income_vip (a : FinInputs) : ℚ :=
  a.vip_area * a.vip_items_density * a.realization_share_vip *
    a.average_item_value * (a.item_realization_markup / 100)

/-- The per-line realization income of the short-term line
(src/app.py lines 170, 184, 189). -/
def realization_income_short_term (a : FinInputs) : ℚ :=
  a.short_term_area * a.short_term_items_density * a.realization_share_short_term *
    a.average_item_value * (a.item_realization_markup / 100)

/-- Output dictionary of `calculate_areas` (src/app.py lines 106-111). -/
structure Areas where
  storage_area : ℚ
  loan_area : ℚ
  vip_area : ℚ
  short_term_area : ℚ

/-- Translation of `calculate_areas` (src/app.py lines 97-111). -/
def calculate_areas (total_area useful_area_ratio shelves_per_m2
    storage_share loan_share vip_share short_term_share : ℚ) : Areas :=
  let useful_area := total_area * useful_area_ratio
  let double_shelf_area := useful_area * 2 * shelves_per_m2
  { storage_area := double_shelf_area * storage_share
    loan_area := double_shelf_area * loan_share
    vip_area := double_shelf_area * vip_share
    short_term_area := double_shelf_area * short_term_share }

/-- The inner bisection loop of `calculate_bep` (src/app.py lines 290-301),
with the Python `for _ in range(100)` fuel made an explicit argument.
`f` stands for the closure `profit_at_param`. -/
def bisect (f : ℚ → ℚ) : Nat → ℚ → ℚ → ℚ → ℚ
  | 0, low, high, _ => (low + high) / 2
  | n+1, low, high, profit_low =>
    if f ((low + high) / 2) = 0 ∨ high - low < 1/100 then (low + high) / 2
    else if (profit_low < 0 ∧ 0 < f ((low + high) / 2)) ∨
            (0 < profit_low ∧ f ((low + high) / 2) < 0) then
      bisect f n low ((low + high) / 2) profit_low
    else
      bisect f n ((low + high) / 2) high (f ((low + high) / 2))

/-- The outer widening loop of `calculate_bep` (src/app.py lines 276-302):
the remaining number of attempts and the current multipliers are explicit. -/
def bracketLoop (f : ℚ → ℚ) (base_value : ℚ) : Nat → ℚ → ℚ → Option ℚ
  | 0, _, _ => none
  | n+1, low_multiplier, high_multiplier =>
    if (0 < f (base_value * low_multiplier) ∧ 0 < f (base_value * high_multiplier)) ∨
       (f (base_value * low_multiplier) < 0 ∧ f (base_value * high_multiplier) < 0) then
      bracketLoop f base_value n (low_multiplier - 1/2) (high_multiplier + 1/2)
    else
      some (bisect f 100 (base_value * low_multiplier) (base_value * high_multiplier)
        (f (base_value * low_multiplier)))

/-- Translation of `calculate_bep` (src/app.py lines 232-302): `f` is the
closure `profit_at_param` built from `calculate_financials` and the fixed
keyword arguments; initial multipliers 0.5 and 1.5, five attempts. -/
def calculate_bep (f : ℚ → ℚ) (base_value : ℚ) : Option ℚ :=
  bracketLoop f base_value 5 (1/2) (3/2)

/-- `profit_at_param` for the target parameter `storage_fee`
(src/app.py lines 262-268): recompute the financials with the
`storage_fee` entry replaced and read off the profit. -/
def profit_at_storage_fee (a : FinInputs) (value : ℚ) : ℚ :=
  (calculate_financials { a with storage_fee := value }).profit

/-- Number of `profit_at_param` evaluations performed by the bisection loop
(one per executed iteration of src/app.py lines 290-292). -/
def bisect_profit_evals (f : ℚ → ℚ) : Nat → ℚ → ℚ → ℚ → Nat
  | 0, _, _, _ => 0
  | n+1, low, high, profit_low =>
    if f ((low + high) / 2) = 0 ∨ high - low < 1/100 then 1
    else if (profit_low < 0 ∧ 0 < f ((low + high) / 2)) ∨
            (0 < profit_low ∧ f ((low + high) / 2) < 0) then
      1 + bisect_profit_evals f n low ((low + high) / 2) profit_low
    else
      1 + bisect_profit_evals f n ((low + high) / 2) high (f ((low + high) / 2))

/-- Number of `profit_at_param` evaluations performed by the widening loop
(two per attempt, src/app.py lines 279-280, plus those of the bisection). -/
def bracket_profit_evals (f : ℚ → ℚ) (base_value : ℚ) : Nat → ℚ → ℚ → Nat
  | 0, _, _ => 0
  | n+1, low_multiplier, high_multiplier =>
    if (0 < f (base_value * low_multiplier) ∧ 0 < f (base_value * high_multiplier)) ∨
       (f (base_value * low_multiplier) < 0 ∧ f (base_value * high_multiplier) < 0) then
      2 + bracket_profit_evals f base_value n (low_multiplier - 1/2) (high_multiplier + 1/2)
    else
      2 + bisect_profit_evals f 100 (base_value * low_multiplier)
        (base_value * high_multiplier) (f (base_value * low_multiplier))

/-- Total number of profit evaluations of one `calculate_bep` call. -/
def bep_profit_evals (f : ℚ → ℚ) (base_value : ℚ) : Nat :=
  bracket_profit_evals f base_value 5 (1/2) (3/2)

/-- The flat parameter mapping assembled by the UI layer
(src/app.py lines 795-827, with the four areas of line 839 merged in),
as consumed by `validate_inputs`, `project_financials` and the
minimum-loan computation. -/
structure Params where
  total_area : ℚ
  rental_cost_per_m2 : ℚ
  useful_area_ratio : ℚ
  storage_share : ℚ
  loan_share : ℚ
  vip_share : ℚ
  short_term_share : ℚ
  storage_fee : ℚ
  shelves_per_m2 : ℚ
  short_term_daily_rate : ℚ
  item_evaluation : ℚ
  item_realization_markup : ℚ
  average_item_value : ℚ
  loan_interest_rate : ℚ
  realization_share_storage : ℚ
  realization_share_loan : ℚ
  realization_share_vip : ℚ
  realization_share_short_term : ℚ
  salary_expense : ℚ
  miscellaneous_expenses : ℚ
  depreciation_expense : ℚ
  time_horizon : ℕ
  monthly_rent_growth : ℚ
  default_probability : ℚ
  liquidity_factor : ℚ
  safety_factor : ℚ
  storage_items_density : ℚ
  loan_items_density : ℚ
  vip_items_density : ℚ
  short_term_items_density : ℚ
  vip_extra_fee : ℚ
  storage_area : ℚ
  loan_area : ℚ
  vip_area : ℚ
  short_term_area : ℚ

/-- Translation of `validate_inputs` (src/app.py lines 40-76): true exactly
when the error list stays empty, i.e. when every check passes. -/
def validate_inputs (p : Params) : Bool :=
  decide (0 < p.total_area) && decide (0 < p.rental_cost_per_m2) &&
  decide (0 ≤ p.loan_interest_rate) && decide (0 ≤ p.storage_fee) &&
  decide (0 ≤ p.useful_area_ratio ∧ p.useful_area_ratio ≤ 1) &&
  decide (0 ≤ p.storage_share ∧ p.storage_share ≤ 1) &&
  decide (0 ≤ p.loan_share ∧ p.loan_share ≤ 1) &&
  decide (0 ≤ p.vip_share ∧ p.vip_share ≤ 1) &&
  decide (0 ≤ p.short_term_share ∧ p.short_term_share ≤ 1) &&
  decide (p.storage_share + p.loan_share + p.vip_share + p.short_term_share ≤ 1 + 1/1000000) &&
  decide (0 ≤ p.average_item_value) && decide (0 ≤ p.salary_expense) &&
  decide (0 ≤ p.miscellaneous_expenses) && decide (0 ≤ p.depreciation_expense) &&
  decide (0 ≤ p.default_probability ∧ p.default_probability ≤ 1)

/-- The keyword-argument tuple passed to `calculate_financials` by
`project_financials` (src/app.py lines 382-408): every entry is taken from
`params` except the rental cost, which is the running monthly value. -/
def finInputsOfParams (p : Params) (rental : ℚ) : FinInputs where
  storage_area := p.storage_area
  loan_area := p.loan_area
  vip_area := p.vip_area
  short_term_area := p.short_term_area
  storage_items_density := p.storage_items_density
  loan_items_density := p.loan_items_density
  vip_items_density := p.vip_items_density
  short_term_items_density := p.short_term_items_density
  storage_fee := p.storage_fee
  item_evaluation := p.item_evaluation
  item_realization_markup := p.item_realization_markup
  average_item_value := p.average_item_value
  loan_interest_rate := p.loan_interest_rate
  realization_share_storage := p.realization_share_storage
  realization_share_loan := p.realization_share_loan
  realization_share_vip := p.realization_share_vip
  realization_share_short_term := p.realization_share_short_term
  rental_cost_per_m2 := rental
  total_area := p.total_area
  salary_expense := p.salary_expense
  miscellaneous_expenses := p.miscellaneous_expenses
  depreciation_expense := p.depreciation_expense
  default_probability := p.default_probability
  vip_extra_fee := p.vip_extra_fee
  short_term_daily_rate := p.short_term_daily_rate

/-- One row of the projection table built by `project_financials`
(src/app.py lines 413-416): month index, month income, month expenses and
the cumulative profit column. -/
structure ProjRow where
  month : ℕ
  income : ℚ
  expenses : ℚ
  profit : ℚ

/-- The body of the `for month in range(1, months + 1)` loop of
`project_financials` (src/app.py lines 376-416): `remaining` counts the
months still to produce, `month` is the loop variable, `rent` the running
`current_rental_cost_per_m2` and `cum` the running `cumulative_profit`. -/
def projectAux (p : Params) : Nat → Nat → ℚ → ℚ → List ProjRow
  | 0, _, _, _ => []
  | remaining+1, month, rent, cum =>
    let current := if 1 < month then rent * (1 + p.monthly_rent_growth) else rent
    let fin := calculate_financials (finInputsOfParams p current)
    { month := month, income := fin.total_income, expenses := fin.total_expenses,
      profit := cum + fin.profit } ::
      projectAux p remaining (month+1) current (cum + fin.profit)

/-- Translation of `project_financials` (src/app.py lines 364-419). -/
def project_financials (p : Params) : List ProjRow :=
  projectAux p p.time_horizon 1 p.rental_cost_per_m2 0

/-- The rental cost per m² used for month `k+1` of the projection:
the base value compounded `k` times by `(1 + monthly_rent_growth)`. -/
def month_rent (p : Params) (k : ℕ) : ℚ :=
  p.rental_cost_per_m2 * (1 + p.monthly_rent_growth) ^ k

/-- The financial breakdown of month `k+1` of the projection. -/
def month_breakdown (p : Params) (k : ℕ) : FinancialBreakdown :=
  calculate_financials (finInputsOfParams p (month_rent p k))

/-- The cumulative profit after the first `k+1` months of the projection. -/
def cumulative_profit (p : Params) (k : ℕ) : ℚ :=
  Finset.sum (Finset.range (k+1)) fun j => (month_breakdown p j).profit

/-- Translation of the minimum-loan-amount computation
(src/app.py lines 894-904): risk-adjusted branch when the extended
parameters are enabled and the rate is positive, basic branch guarded by
`rate > 0`, and 0 otherwise. -/
def min_loan_amount (disable_extended : Bool) (p : Params) : ℚ :=
  let base_financials := calculate_financials (finInputsOfParams p p.rental_cost_per_m2)
  if disable_extended = false ∧ 0 < p.loan_interest_rate then
    let average_growth_factor := 1 + p.monthly_rent_growth * ((p.time_horizon : ℚ) / 2)
    let adjusted_daily_storage_fee := base_financials.daily_storage_fee * average_growth_factor
    p.safety_factor * (adjusted_daily_storage_fee /
      ((p.loan_interest_rate / 100) * (1 - p.default_probability) * p.liquidity_factor))
  else
    if 0 < p.loan_interest_rate then
      base_financials.daily_storage_fee / (p.loan_interest_rate / 100)
    else 0

/-- A concrete argument tuple, taken from the application's default widget
values (`src/app.py` sidebar), for use in witness theorems. -/
def exA : FinInputs where
  storage_area := 375
  loan_area := 225
  vip_area := 75
  short_term_area := 75
  storage_items_density := 5
  loan_items_density := 5
  vip_items_density := 2
  short_term_items_density := 4
  storage_fee := 1500
  item_evaluation := 4/5
  item_realization_markup := 20
  average_item_value := 10000
  loan_interest_rate := 317/1000
  realization_share_storage := 1/2
  realization_share_loan := 1/2
  realization_share_vip := 1/2
  realization_share_short_term := 1/2
  rental_cost_per_m2 := 1000
  total_area := 250
  salary_expense := 240000
  miscellaneous_expenses := 50000
  depreciation_expense := 20000
  default_probability := 1/20

/-- A degenerate argument tuple whose profit, as a function of the storage
fee, is `fee - 5`: only the plain-storage line is active. -/
def exZ : FinInputs where
  storage_area := 1
  loan_area := 0
  vip_area := 0
  short_term_area := 0
  storage_items_density := 0
  loan_items_density := 0
  vip_items_density := 0
  short_term_items_density := 0
  storage_fee := 0
  item_evaluation := 0
  item_realization_markup := 0
  average_item_value := 0
  loan_interest_rate := 0
  realization_share_storage := 0
  realization_share_loan := 0
  realization_share_vip := 0
  realization_share_short_term := 0
  rental_cost_per_m2 := 0
  total_area := 0
  salary_expense := 5
  miscellaneous_expenses := 0
  depreciation_expense := 0
  default_probability := 0

/-- A concrete parameter mapping taken from the application's default
widget values, passing `validate_inputs`, for use in witness theorems. -/
def exP : Params where
  total_area := 250
  rental_cost_per_m2 := 1000
  useful_area_ratio := 1/2
  storage_share := 1/2
  loan_share := 3/10
  vip_share := 1/10
  short_term_share := 1/10
  storage_fee := 1500
  shelves_per_m2 := 3
  short_term_daily_rate := 60
  item_evaluation := 4/5
  item_realization_markup := 20
  average_item_value := 10000
  loan_interest_rate := 317/1000
  realization_share_storage := 1/2
  realization_share_loan := 1/2
  realization_share_vip := 1/2
  realization_share_short_term := 1/2
  salary_expense := 240000
  miscellaneous_expenses := 50000
  depreciation_expense := 20000
  time_horizon := 6
  monthly_rent_growth := 1/100
  default_probability := 1/20
  liquidity_factor := 1
  safety_factor := 6/5
  storage_items_density := 5
  loan_items_density := 5
  vip_items_density := 2
  short_term_items_density := 4
  vip_extra_fee := 1000
  storage_area := 375
  loan_area := 225
  vip_area := 75
  short_term_area := 75

/-- One-step unfolding of `bisect` on positive fuel. -/
lemma bisect_succ (f : ℚ → ℚ) (n : ℕ) (low high profit_low : ℚ) :
    bisect f (n+1) low high profit_low =
      if f ((low + high) / 2) = 0 ∨ high - low < 1/100 then (low + high) / 2
      else if (profit_low < 0 ∧ 0 < f ((low + high) / 2)) ∨
              (0 < profit_low ∧ f ((low + high) / 2) < 0) then
        bisect f n low ((low + high) / 2) profit_low
      else
        bisect f n ((low + high) / 2) high (f ((low + high) / 2)) := rfl

/-- One-step unfolding of `bracketLoop` on positive fuel. -/
lemma bracketLoop_succ (f : ℚ → ℚ) (b : ℚ) (n : ℕ) (lm hm : ℚ) :
    bracketLoop f b (n+1) lm hm =
      if (0 < f (b * lm) ∧ 0 < f (b * hm)) ∨
         (f (b * lm) < 0 ∧ f (b * hm) < 0) then
        bracketLoop f b n (lm - 1/2) (hm + 1/2)
      else
        some (bisect f 100 (b * lm) (b * hm) (f (b * lm))) := rfl

/-- C1: for every input tuple the breakdown returned by
`calculate_financials` satisfies profit = total_income − total_expenses,
total_income is the sum of the five income streams, and
realization_income is the sum of the four per-line realization incomes. -/
theorem financial_breakdown_identities (a : FinInputs) :
    (calculate_financials a).profit =
      (calculate_financials a).total_income - (calculate_financials a).total_expenses ∧
    (calculate_financials a).total_income =
      (calculate_financials a).storage_income +
      (calculate_financials a).loan_income_after_realization +
      (calculate_financials a).realization_income +
      (calculate_financials a).vip_income +
      (calculate_financials a).short_term_income ∧
    (calculate_financials a).realization_income =
      realization_income_storage a + realization_income_loan a +
      realization_income_vip a + realization_income_short_term a := by
  refine ⟨rfl, rfl, ?_⟩
  simp only [calculate_financials, realization_income_storage, realization_income_loan,
    realization_income_vip, realization_income_short_term]

/-- C2: the daily interest rate is clamped to ≥ 0 before use, the returned
loan income equals
loan_area × average_item_value × item_evaluation × (clamped rate / 100) × 30
× (1 − realization_share_loan) × (1 − default_probability), and a negative
rate yields the same loan income as rate 0. -/
theorem loan_income_clamped (a : FinInputs) :
    (calculate_financials a).loan_income_after_realization =
      a.loan_area * a.average_item_value * a.item_evaluation *
        (max a.loan_interest_rate 0 / 100) * 30 *
        (1 - a.realization_share_loan) * (1 - a.default_probability) ∧
    (a.loan_interest_rate < 0 →
      (calculate_financials a).loan_income_after_realization =
        (calculate_financials { a with loan_interest_rate := 0 }).loan_income_after_realization) := by
  constructor
  · simp only [calculate_financials]
  · intro h
    simp only [calculate_financials, max_eq_right h.le, max_self]

/-- Witness for C2 at a concrete input with interest rate −3. -/
theorem loan_income_clamped_witness :
    ((-3 : ℚ) < 0) ∧
    (calculate_financials { exA with loan_interest_rate := -3 }).loan_income_after_realization =
    (calculate_financials { { exA with loan_interest_rate := -3 } with
        loan_interest_rate := 0 }).loan_income_after_realization :=
  ⟨by norm_num,
    (loan_income_clamped { exA with loan_interest_rate := -3 }).2 (by norm_num [exA])⟩

/-- C6 counterexample: quantified over arbitrary inputs the additivity
claim fails.  With all four shares 1 the areas sum to 8 > 2 = capacity;
with a negative total area the sum exceeds the capacity although the
shares sum to 1/2 ≤ 1; with total area 0 the sum equals the capacity
although the shares do not sum to 1, refuting the "equality exactly when
the shares sum to 1" direction. -/
theorem allocation_additivity_counterexample :
    (¬ ((calculate_areas 1 1 1 1 1 1 1).storage_area +
        (calculate_areas 1 1 1 1 1 1 1).loan_area +
        (calculate_areas 1 1 1 1 1 1 1).vip_area +
        (calculate_areas 1 1 1 1 1 1 1).short_term_area ≤ 1 * 1 * 2 * 1)) ∧
    (¬ ((calculate_areas (-1) 1 1 (1/2) 0 0 0).storage_area +
        (calculate_areas (-1) 1 1 (1/2) 0 0 0).loan_area +
        (calculate_areas (-1) 1 1 (1/2) 0 0 0).vip_area +
        (calculate_areas (-1) 1 1 (1/2) 0 0 0).short_term_area ≤ (-1) * 1 * 2 * 1)) ∧
    ((calculate_areas 0 1 1 (1/2) 0 0 0).storage_area +
        (calculate_areas 0 1 1 (1/2) 0 0 0).loan_area +
        (calculate_areas 0 1 1 (1/2) 0 0 0).vip_area +
        (calculate_areas 0 1 1 (1/2) 0 0 0).short_term_area = 0 * 1 * 2 * 1 ∧
      ((1:ℚ)/2 + 0 + 0 + 0 ≠ 1)) := by
  refine ⟨?_, ?_, ?_, ?_⟩ <;> norm_num [calculate_areas]

/-- C6 amended: each area returned by `calculate_areas` always equals
total_area × useful_area_ratio × 2 × shelves_per_m2 × its share; and when
that capacity is positive and the four shares sum to at most 1, the four
areas sum to at most the capacity, with equality iff the shares sum to
exactly 1. -/
theorem allocation_additivity (ta ur sh s1 s2 s3 s4 : ℚ) :
    ((calculate_areas ta ur sh s1 s2 s3 s4).storage_area = ta * ur * 2 * sh * s1 ∧
     (calculate_areas ta ur sh s1 s2 s3 s4).loan_area = ta * ur * 2 * sh * s2 ∧
     (calculate_areas ta ur sh s1 s2 s3 s4).vip_area = ta * ur * 2 * sh * s3 ∧
     (calculate_areas ta ur sh s1 s2 s3 s4).short_term_area = ta * ur * 2 * sh * s4) ∧
    (0 < ta * ur * 2 * sh → s1 + s2 + s3 + s4 ≤ 1 →
      (calculate_areas ta ur sh s1 s2 s3 s4).storage_area +
        (calculate_areas ta ur sh s1 s2 s3 s4).loan_area +
        (calculate_areas ta ur sh s1 s2 s3 s4).vip_area +
        (calculate_areas ta ur sh s1 s2 s3 s4).short_term_area ≤ ta * ur * 2 * sh ∧
      ((calculate_areas ta ur sh s1 s2 s3 s4).storage_area +
        (calculate_areas ta ur sh s1 s2 s3 s4).loan_area +
        (calculate_areas ta ur sh s1 s2 s3 s4).vip_area +
        (calculate_areas ta ur sh s1 s2 s3 s4).short_term_area = ta * ur * 2 * sh ↔
        s1 + s2 + s3 + s4 = 1)) := by
  have hsum : (calculate_areas ta ur sh s1 s2 s3 s4).storage_area +
      (calculate_areas ta ur sh s1 s2 s3 s4).loan_area +
      (calculate_areas ta ur sh s1 s2 s3 s4).vip_area +
      (calculate_areas ta ur sh s1 s2 s3 s4).short_term_area =
      ta * ur * 2 * sh * (s1 + s2 + s3 + s4) := by
    simp only [calculate_areas]
    ring
  refine ⟨⟨by simp only [calculate_areas], by simp only [calculate_areas],
    by simp only [calculate_areas], by simp only [calculate_areas]⟩, ?_⟩
  intro hC hs
  rw [hsum]
  constructor
  · calc ta * ur * 2 * sh * (s1 + s2 + s3 + s4) ≤ ta * ur * 2 * sh * 1 :=
        mul_le_mul_of_nonneg_left hs hC.le
      _ = ta * ur * 2 * sh := mul_one _
  · constructor
    · intro h
      exact mul_left_cancel₀ hC.ne' (by rw [h, mul_one])
    · intro h
      rw [h, mul_one]

/-- Witness for C6 at the application's default inputs, whose shares sum
to exactly 1 and whose capacity is 750. -/
theorem allocation_additivity_witness :
    (calculate_areas 250 (1/2) 3 (1/2) (3/10) (1/10) (1/10)).storage_area +
      (calculate_areas 250 (1/2) 3 (1/2) (3/10) (1/10) (1/10)).loan_area +
      (calculate_areas 250 (1/2) 3 (1/2) (3/10) (1/10) (1/10)).vip_area +
      (calculate_areas 250 (1/2) 3 (1/2) (3/10) (1/10) (1/10)).short_term_area ≤
      250 * (1/2) * 2 * 3 :=
  ((allocation_additivity 250 (1/2) 3 (1/2) (3/10) (1/10) (1/10)).2
    (by norm_num) (by norm_num)).1

/-- C9: with all other arguments fixed, the profit of
`calculate_financials` is affine in the storage fee with slope
storage_area + vip_area; it is strictly increasing in the fee when that
slope is positive, so the breakeven root in the fee is unique. -/
theorem profit_affine_in_storage_fee (a : FinInputs) (f1 f2 : ℚ) :
    (calculate_financials { a with storage_fee := f1 }).profit -
      (calculate_financials { a with storage_fee := f2 }).profit =
      (f1 - f2) * (a.storage_area + a.vip_area) ∧
    (0 < a.storage_area + a.vip_area → f1 < f2 →
      (calculate_financials { a with storage_fee := f1 }).profit <
      (calculate_financials { a with storage_fee := f2 }).profit) ∧
    (0 < a.storage_area + a.vip_area →
      (calculate_financials { a with storage_fee := f1 }).profit = 0 →
      (calculate_financials { a with storage_fee := f2 }).profit = 0 → f1 = f2) := by
  have hdiff : (calculate_financials { a with storage_fee := f1 }).profit -
      (calculate_financials { a with storage_fee := f2 }).profit =
      (f1 - f2) * (a.storage_area + a.vip_area) := by
    simp only [calculate_financials]
    ring
  refine ⟨hdiff, ?_, ?_⟩
  · intro hS hf
    have hneg : (f1 - f2) * (a.storage_area + a.vip_area) < 0 :=
      mul_neg_of_neg_of_pos (by linarith) hS
    linarith [hdiff]
  · intro hS h1 h2
    have h0 : (f1 - f2) * (a.storage_area + a.vip_area) = 0 := by
      rw [← hdiff, h1, h2]
      ring
    rcases mul_eq_zero.mp h0 with h | h
    · linarith
    · exact absurd h hS.ne'

/-- Witness for C9: monotonicity at the default inputs (slope 450), and
root uniqueness at the degenerate input whose profit is fee − 5. -/
theorem profit_affine_in_storage_fee_witness :
    ((calculate_financials { exA with storage_fee := 0 }).profit <
      (calculate_financials { exA with storage_fee := 1 }).profit) ∧ (5:ℚ) = 5 :=
  ⟨(profit_affine_in_storage_fee exA 0 1).2.1 (by norm_num [exA]) (by norm_num),
    (profit_affine_in_storage_fee exZ 5 5).2.2 (by norm_num [exZ])
      (by norm_num [exZ, calculate_financials])
      (by norm_num [exZ, calculate_financials])⟩

/-- C8: when the daily loan interest rate is 0 the minimum-loan
computation returns 0 in both modes; the guards of both division branches
are false, so neither division branch is reachable. -/
theorem min_loan_zero_rate (disable_extended : Bool) (p : Params)
    (h : p.loan_interest_rate = 0) :
    min_loan_amount disable_extended p = 0 ∧
    ¬ (disable_extended = false ∧ 0 < p.loan_interest_rate) ∧
    ¬ (0 < p.loan_interest_rate) := by
  have h2 : ¬ (0 < p.loan_interest_rate) := by
    rw [h]
    exact lt_irrefl 0
  refine ⟨?_, fun hc => h2 hc.2, h2⟩
  simp only [min_loan_amount]
  rw [if_neg (fun hc => h2 hc.2), if_neg h2]

/-- Witness for C8 at the default parameters with the rate set to 0, in
both the extended and the basic mode. -/
theorem min_loan_zero_rate_witness :
    min_loan_amount false { exP with loan_interest_rate := 0 } = 0 ∧
    min_loan_amount true { exP with loan_interest_rate := 0 } = 0 :=
  ⟨(min_loan_zero_rate false { exP with loan_interest_rate := 0 } (by norm_num [exP])).1,
    (min_loan_zero_rate true { exP with loan_interest_rate := 0 } (by norm_num [exP])).1⟩

/-- If at every one of the remaining attempts the two bracket ends give
profits of the same strict sign, the widening loop returns `none`. -/
lemma bracketLoop_same_sign_none (f : ℚ → ℚ) (b : ℚ) :
    ∀ (n : ℕ) (lm hm : ℚ),
      (∀ k : ℕ, k < n →
        (0 < f (b * (lm - (k:ℚ)/2)) ∧ 0 < f (b * (hm + (k:ℚ)/2))) ∨
        (f (b * (lm - (k:ℚ)/2)) < 0 ∧ f (b * (hm + (k:ℚ)/2)) < 0)) →
      bracketLoop f b n lm hm = none := by
  intro n
  induction n with
  | zero =>
    intro lm hm _
    rfl
  | succ n ih =>
    intro lm hm H
    have h0 := H 0 (Nat.succ_pos n)
    norm_num at h0
    rw [bracketLoop_succ, if_pos h0]
    apply ih
    intro k hk
    have hk1 := H (k+1) (Nat.succ_lt_succ hk)
    have el : b * (lm - ((k:ℚ)+1)/2) = b * ((lm - 1/2) - (k:ℚ)/2) := by ring
    have eh : b * (hm + ((k:ℚ)+1)/2) = b * ((hm + 1/2) + (k:ℚ)/2) := by ring
    push_cast at hk1
    rw [el, eh] at hk1
    exact hk1

/-- C3: if the profit has the same strict sign at both bracket ends on
every one of the 5 attempts — multipliers [1/2 − k/2, 3/2 + k/2] around
the base value for k = 0..4 — then `calculate_bep` returns `none`
("not found") as a normal value, never a spurious root. -/
theorem bep_no_sign_change_none (f : ℚ → ℚ) (base_value : ℚ)
    (H : ∀ k : ℕ, k < 5 →
      (0 < f (base_value * (1/2 - (k:ℚ)/2)) ∧ 0 < f (base_value * (3/2 + (k:ℚ)/2))) ∨
      (f (base_value * (1/2 - (k:ℚ)/2)) < 0 ∧ f (base_value * (3/2 + (k:ℚ)/2)) < 0)) :
    calculate_bep f base_value = none :=
  bracketLoop_same_sign_none f base_value 5 (1/2) (3/2) H

/-- Witness for C3: the constant profit 1 (always positive) makes the
solver report "not found". -/
theorem bep_no_sign_change_none_witness :
    calculate_bep (fun _ => (1:ℚ)) 1 = none :=
  bep_no_sign_change_none (fun _ => (1:ℚ)) 1 (fun _ _ => Or.inl ⟨one_pos, one_pos⟩)

/-- C10: with base value 0 every bracket bound is 0, so the solver only
ever evaluates the profit at 0: it returns 0 when that profit is exactly
zero and `none` otherwise. -/
theorem bep_zero_base (f : ℚ → ℚ) :
    calculate_bep f 0 = if f 0 = 0 then some 0 else none := by
  have key : ∀ (n : ℕ) (lm hm : ℚ), f 0 ≠ 0 → bracketLoop f 0 n lm hm = none := by
    intro n
    induction n with
    | zero =>
      intro lm hm _
      rfl
    | succ n ih =>
      intro lm hm hne
      rw [bracketLoop_succ]
      simp only [zero_mul]
      rcases hne.lt_or_lt with h | h
      · rw [if_pos (Or.inr ⟨h, h⟩)]
        exact ih _ _ hne
      · rw [if_pos (Or.inl ⟨h, h⟩)]
        exact ih _ _ hne
  by_cases h : f 0 = 0
  · rw [if_pos h]
    show bracketLoop f 0 (4+1) (1/2) (3/2) = some 0
    rw [bracketLoop_succ]
    simp only [zero_mul]
    rw [if_neg (by rw [h]; rintro (⟨h1, _⟩ | ⟨h1, _⟩) <;> exact lt_irrefl 0 h1)]
    rw [show (100:ℕ) = 99+1 from rfl, bisect_succ]
    rw [if_pos (Or.inl (by norm_num [h]))]
    norm_num
  · rw [if_neg h]
    exact key 5 _ _ h

/-- The bisection loop performs at most one profit evaluation per unit of
fuel. -/
lemma bisect_profit_evals_le (f : ℚ → ℚ) :
    ∀ (n : ℕ) (low high profit_low : ℚ),
      bisect_profit_evals f n low high profit_low ≤ n := by
  intro n
  induction n with
  | zero =>
    intro low high pl
    exact Nat.le_refl 0
  | succ n ih =>
    intro low high pl
    simp only [bisect_profit_evals]
    split_ifs
    · omega
    · have := ih low ((low + high) / 2) pl
      omega
    · have := ih ((low + high) / 2) high (f ((low + high) / 2))
      omega

/-- The widening loop performs at most two profit evaluations per attempt
plus those of one bisection run. -/
lemma bracket_profit_evals_le (f : ℚ → ℚ) (b : ℚ) :
    ∀ (n : ℕ) (lm hm : ℚ), bracket_profit_evals f b n lm hm ≤ 2 * n + 100 := by
  intro n
  induction n with
  | zero =>
    intro lm hm
    exact Nat.zero_le _
  | succ n ih =>
    intro lm hm
    simp only [bracket_profit_evals]
    split_ifs
    · have := ih (lm - 1/2) (hm + 1/2)
      omega
    · have := bisect_profit_evals_le f 100 (b * lm) (b * hm) (f (b * lm))
      omega

/-- C5: exhausted bisection fuel returns the final midpoint; a bracketed
search runs at most 100 bisection iterations (one profit evaluation
each); and a whole `calculate_bep` call performs at most 5 × 100 profit
evaluations, hence terminates. -/
theorem bep_iteration_bound (f : ℚ → ℚ) (base_value low high profit_low : ℚ) :
    bisect f 0 low high profit_low = (low + high) / 2 ∧
    bisect_profit_evals f 100 low high profit_low ≤ 100 ∧
    bep_profit_evals f base_value ≤ 5 * 100 :=
  ⟨rfl, bisect_profit_evals_le f 100 low high profit_low,
    Nat.le_trans (bracket_profit_evals_le f base_value 5 (1/2) (3/2)) (by norm_num)⟩

/-- C4 counterexample: with profit function x ↦ x − 1/200 and base value
1/100, the low bracket bound 1/200 has profit exactly 0, yet the solver
does not return that bound: it runs the bisection and returns 1/80, a
value whose profit is not zero. -/
theorem bep_zero_bound_counterexample :
    (fun x => x - 1/200) ((1/100 : ℚ) * (1/2)) = 0 ∧
    calculate_bep (fun x => x - 1/200) (1/100) = some (1/80) ∧
    ((1/80 : ℚ) ≠ (1/100 : ℚ) * (1/2)) ∧
    (fun x => x - 1/200) ((1/80 : ℚ)) ≠ 0 := by
  refine ⟨by norm_num, ?_, by norm_num, by norm_num⟩
  rw [calculate_bep, show (5:ℕ) = 4+1 from rfl, bracketLoop_succ]
  norm_num
  rw [show (100:ℕ) = 99+1 from rfl, bisect_succ]
  norm_num
  rw [show (99:ℕ) = 98+1 from rfl, bisect_succ]
  norm_num

/-- If every attempt before `k` sees profits of the same strict sign at
both bracket ends, and attempt `k` (within the remaining fuel) sees a
profit of exactly 0 at one of its ends, the widening loop stops at
attempt `k` and returns the result of bisecting that bracket. -/
lemma bracketLoop_zero_bound (f : ℚ → ℚ) (b : ℚ) :
    ∀ (k n : ℕ), k < n → ∀ (lm hm : ℚ),
      (∀ j : ℕ, j < k →
        (0 < f (b * (lm - (j:ℚ)/2)) ∧ 0 < f (b * (hm + (j:ℚ)/2))) ∨
        (f (b * (lm - (j:ℚ)/2)) < 0 ∧ f (b * (hm + (j:ℚ)/2)) < 0)) →
      (f (b * (lm - (k:ℚ)/2)) = 0 ∨ f (b * (hm + (k:ℚ)/2)) = 0) →
      bracketLoop f b n lm hm =
        some (bisect f 100 (b * (lm - (k:ℚ)/2)) (b * (hm + (k:ℚ)/2))
          (f (b * (lm - (k:ℚ)/2)))) := by
  intro k
  induction k with
  | zero =>
    intro n hn lm hm _ h0
    obtain ⟨n', rfl⟩ : ∃ n', n = n'+1 := ⟨n - 1, by omega⟩
    norm_num at h0 ⊢
    have hnc : ¬ ((0 < f (b * lm) ∧ 0 < f (b * hm)) ∨
        (f (b * lm) < 0 ∧ f (b * hm) < 0)) := by
      rintro (⟨h1, h2⟩ | ⟨h1, h2⟩) <;> rcases h0 with h0 | h0 <;> linarith
    rw [bracketLoop_succ, if_neg hnc]
  | succ k ih =>
    intro n hn lm hm Hpre h0
    obtain ⟨n', rfl⟩ : ∃ n', n = n'+1 := ⟨n - 1, by omega⟩
    have hsame := Hpre 0 (Nat.succ_pos k)
    norm_num at hsame
    have el : b * (lm - ((k:ℚ)+1)/2) = b * ((lm - 1/2) - (k:ℚ)/2) := by ring
    have eh : b * (hm + ((k:ℚ)+1)/2) = b * ((hm + 1/2) + (k:ℚ)/2) := by ring
    push_cast at h0 ⊢
    rw [el, eh] at h0 ⊢
    rw [bracketLoop_succ, if_pos hsame]
    refine ih n' (by omega) (lm - 1/2) (hm + 1/2) ?_ h0
    intro j hj
    have hj1 := Hpre (j+1) (Nat.succ_lt_succ hj)
    have ejl : b * (lm - ((j:ℚ)+1)/2) = b * ((lm - 1/2) - (j:ℚ)/2) := by ring
    have ejh : b * (hm + ((j:ℚ)+1)/2) = b * ((hm + 1/2) + (j:ℚ)/2) := by ring
    push_cast at hj1
    rw [ejl, ejh] at hj1
    exact hj1

/-- C4 amended: whenever the solver reaches an attempt whose bracket has
a bound with profit exactly 0 — every earlier attempt having seen the
same strict profit sign at both ends — it stops widening, accepts that
bracket, and proceeds to the bisection loop, returning that loop's
result (a midpoint), not necessarily the zero-profit bound itself. -/
theorem bep_zero_bound_bisects (f : ℚ → ℚ) (base_value : ℚ) (k : ℕ) (hk : k < 5)
    (Hpre : ∀ j : ℕ, j < k →
      (0 < f (base_value * (1/2 - (j:ℚ)/2)) ∧ 0 < f (base_value * (3/2 + (j:ℚ)/2))) ∨
      (f (base_value * (1/2 - (j:ℚ)/2)) < 0 ∧ f (base_value * (3/2 + (j:ℚ)/2)) < 0))
    (h : f (base_value * (1/2 - (k:ℚ)/2)) = 0 ∨ f (base_value * (3/2 + (k:ℚ)/2)) = 0) :
    calculate_bep f base_value =
      some (bisect f 100 (base_value * (1/2 - (k:ℚ)/2)) (base_value * (3/2 + (k:ℚ)/2))
        (f (base_value * (1/2 - (k:ℚ)/2)))) :=
  bracketLoop_zero_bound f base_value k 5 hk (1/2) (3/2) Hpre h

/-- Witness for C4's amended claim with a zero bound reached only after
widening: profit x(x − 1/4) at base 1 has both first-attempt profits
positive, and the widened attempt's low bound 0 has profit exactly 0. -/
theorem bep_zero_bound_bisects_witness :
    calculate_bep (fun x => x * (x - 1/4)) 1 =
      some (bisect (fun x => x * (x - 1/4)) 100 0 2 0) := by
  have h := bep_zero_bound_bisects (fun x => x * (x - 1/4)) 1 1 (by norm_num)
    (by
      intro j hj
      obtain rfl : j = 0 := by omega
      left
      constructor <;> norm_num)
    (Or.inl (by norm_num))
  norm_num at h
  exact h

/-- Unfolding of the projection loop body for the first month: the rent is
used unchanged. -/
lemma projectAux_succ_one (p : Params) (r : ℕ) (rent cum : ℚ) :
    projectAux p (r+1) 1 rent cum =
      { month := 1,
        income := (calculate_financials (finInputsOfParams p rent)).total_income,
        expenses := (calculate_financials (finInputsOfParams p rent)).total_expenses,
        profit := cum + (calculate_financials (finInputsOfParams p rent)).profit } ::
      projectAux p r 2 rent
        (cum + (calculate_financials (finInputsOfParams p rent)).profit) := by
  simp only [projectAux]
  rw [if_neg (by omega : ¬ (1:ℕ) < 1)]

/-- Unfolding of the projection loop body for a month ≥ 2: the running
rent is first multiplied by (1 + monthly_rent_growth). -/
lemma projectAux_succ_ge_two (p : Params) (r m : ℕ) (hm : 2 ≤ m) (rent cum : ℚ) :
    projectAux p (r+1) m rent cum =
      { month := m,
        income := (calculate_financials (finInputsOfParams p
          (rent * (1 + p.monthly_rent_growth)))).total_income,
        expenses := (calculate_financials (finInputsOfParams p
          (rent * (1 + p.monthly_rent_growth)))).total_expenses,
        profit := cum + (calculate_financials (finInputsOfParams p
          (rent * (1 + p.monthly_rent_growth)))).profit } ::
      projectAux p r (m+1) (rent * (1 + p.monthly_rent_growth))
        (cum + (calculate_financials (finInputsOfParams p
          (rent * (1 + p.monthly_rent_growth)))).profit) := by
  simp only [projectAux]
  rw [if_pos (by omega : 1 < m)]

/-- The projection loop produces one row per remaining month. -/
lemma projectAux_length (p : Params) :
    ∀ (r m : ℕ) (rent cum : ℚ), (projectAux p r m rent cum).length = r := by
  intro r
  induction r with
  | zero =>
    intro m rent cum
    rfl
  | succ r ih =>
    intro m rent cum
    simp only [projectAux, List.length_cons, ih]

/-- Row `k` of a projection loop started at a month ≥ 2 with running rent
`rent`: the rent used in its row at offset `j` is `rent` compounded `j+1`
times, and the profit column accumulates the corresponding profits. -/
lemma projectAux_get (p : Params) :
    ∀ (k r : ℕ), k < r → ∀ (m : ℕ), 2 ≤ m → ∀ (rent cum : ℚ),
      (projectAux p r m rent cum).get? k =
        some
          { month := m + k
            income := (calculate_financials (finInputsOfParams p
              (rent * (1 + p.monthly_rent_growth) ^ (k+1)))).total_income
            expenses := (calculate_financials (finInputsOfParams p
              (rent * (1 + p.monthly_rent_growth) ^ (k+1)))).total_expenses
            profit := cum + Finset.sum (Finset.range (k+1)) fun j =>
              (calculate_financials (finInputsOfParams p
                (rent * (1 + p.monthly_rent_growth) ^ (j+1)))).profit } := by
  intro k
  induction k with
  | zero =>
    intro r hr m hm rent cum
    obtain ⟨r', rfl⟩ : ∃ r', r = r'+1 := ⟨r - 1, by omega⟩
    rw [projectAux_succ_ge_two p r' m hm rent cum, List.get?_cons_zero]
    simp [Finset.sum_range_one, pow_one]
  | succ k ih =>
    intro r hr m hm rent cum
    obtain ⟨r', rfl⟩ : ∃ r', r = r'+1 := ⟨r - 1, by omega⟩
    rw [projectAux_succ_ge_two p r' m hm rent cum, List.get?_cons_succ]
    rw [ih r' (by omega) (m+1) (by omega) (rent * (1 + p.monthly_rent_growth))
      (cum + (calculate_financials (finInputsOfParams p
        (rent * (1 + p.monthly_rent_growth)))).profit)]
    have harg : ∀ j : ℕ, rent * (1 + p.monthly_rent_growth) *
        (1 + p.monthly_rent_growth) ^ (j+1) =
        rent * (1 + p.monthly_rent_growth) ^ (j+1+1) := by
      intro j
      ring
    have e1 : m + 1 + k = m + (k + 1) := by omega
    have e3 : cum + (calculate_financials (finInputsOfParams p
          (rent * (1 + p.monthly_rent_growth)))).profit +
        Finset.sum (Finset.range (k+1)) (fun j =>
          (calculate_financials (finInputsOfParams p
            (rent * (1 + p.monthly_rent_growth) *
              (1 + p.monthly_rent_growth) ^ (j+1)))).profit) =
        cum + Finset.sum (Finset.range (k+1+1)) (fun j =>
          (calculate_financials (finInputsOfParams p
            (rent * (1 + p.monthly_rent_growth) ^ (j+1)))).profit) := by
      simp only [harg]
      conv_rhs => rw [Finset.sum_range_succ']
      simp only [zero_add, pow_one]
      ring
    rw [e1, harg k, e3]

/-- C7: rows of `project_financials`.  When the inputs pass
`validate_inputs` — the program invokes the projection only then — the
table has exactly `time_horizon` rows; row `k` (0-based) holds month
`k+1`, the income and expenses of `calculate_financials` evaluated at the
rent compounded `k` times, and the cumulative profit of the first `k+1`
months; and for a positive monthly growth the rent used is strictly
increasing month over month. -/
theorem projection_rows (p : Params) (hv : validate_inputs p = true) :
    (project_financials p).length = p.time_horizon ∧
    (∀ k : ℕ, k < p.time_horizon →
      (project_financials p).get? k =
        some
          { month := k + 1
            income := (month_breakdown p k).total_income
            expenses := (month_breakdown p k).total_expenses
            profit := cumulative_profit p k }) ∧
    (0 < p.monthly_rent_growth → ∀ k : ℕ, month_rent p k < month_rent p (k+1)) := by
  have hrent : 0 < p.rental_cost_per_m2 := by
    simp only [validate_inputs, Bool.and_eq_true, decide_eq_true_eq] at hv
    tauto
  refine ⟨projectAux_length p p.time_horizon 1 p.rental_cost_per_m2 0, ?_, ?_⟩
  · intro k hk
    obtain ⟨h', hh⟩ : ∃ h', p.time_horizon = h'+1 := ⟨p.time_horizon - 1, by omega⟩
    rw [project_financials, hh, projectAux_succ_one p h' p.rental_cost_per_m2 0]
    cases k with
    | zero =>
      rw [List.get?_cons_zero]
      simp [month_breakdown, month_rent, cumulative_profit, Finset.sum_range_one]
    | succ k =>
      rw [List.get?_cons_succ]
      rw [projectAux_get p k h' (by omega) 2 (le_refl 2) p.rental_cost_per_m2
        (0 + (calculate_financials (finInputsOfParams p p.rental_cost_per_m2)).profit)]
      simp only [month_breakdown, month_rent, cumulative_profit]
      have e1 : 2 + k = k + 1 + 1 := by omega
      have e3 : 0 + (calculate_financials (finInputsOfParams p
            p.rental_cost_per_m2)).profit +
          Finset.sum (Finset.range (k+1)) (fun j =>
            (calculate_financials (finInputsOfParams p
              (p.rental_cost_per_m2 * (1 + p.monthly_rent_growth) ^ (j+1)))).profit) =
          Finset.sum (Finset.range (k+1+1)) (fun j =>
            (calculate_financials (finInputsOfParams p
              (p.rental_cost_per_m2 * (1 + p.monthly_rent_growth) ^ j))).profit) := by
        conv_rhs => rw [Finset.sum_range_succ']
        simp only [zero_add, pow_zero, mul_one]
        ring
      rw [e1, e3]
  · intro hg k
    have hx : (0:ℚ) < 1 + p.monthly_rent_growth := by linarith
    have h1 : (1:ℚ) < 1 + p.monthly_rent_growth := by linarith
    have hpow : (0:ℚ) < (1 + p.monthly_rent_growth) ^ k := pow_pos hx k
    simp only [month_rent]
    calc p.rental_cost_per_m2 * (1 + p.monthly_rent_growth) ^ k
        = p.rental_cost_per_m2 * ((1 + p.monthly_rent_growth) ^ k * 1) := by ring
      _ < p.rental_cost_per_m2 * ((1 + p.monthly_rent_growth) ^ k *
          (1 + p.monthly_rent_growth)) :=
        mul_lt_mul_of_pos_left (mul_lt_mul_of_pos_left h1 hpow) hrent
      _ = p.rental_cost_per_m2 * (1 + p.monthly_rent_growth) ^ (k+1) := by ring

/-- Witness for C7 at the application's default parameters (horizon 6,
growth 1/100). -/
theorem projection_rows_witness :
    validate_inputs exP = true ∧
    (project_financials exP).length = 6 ∧
    month_rent exP 0 < month_rent exP 1 := by
  have hv : validate_inputs exP = true := by
    simp only [validate_inputs, exP, Bool.and_eq_true, decide_eq_true_eq]
    norm_num
  exact ⟨hv, (projection_rows exP hv).1,
    (projection_rows exP hv).2.2 (by norm_num [exP]) 0⟩

end WarehouseApp
